import Mathlib

/-!
Verification development for the threadbus library (src/index.ts): a Bus
connecting two execution contexts over a message port, with a bind
handshake, catalog exchange of exposed objects, and a token-correlated
request/response mechanism for remote get/set/call on exposed entries.

The JavaScript source is shallowly embedded: objects become association
lists, listener callbacks are defunctionalized into an inductive kind that
records exactly the data each closure captured, and the message handler
installed by initListener becomes the function handleMessage on an
explicit BusState. Promise resolution is made observable through the
resolved list (one entry per resolve call that actually fires) and the
firedTokens list (a promise resolves at most once).
-/

namespace Threadbus

/-- JS runtime values that travel in message payloads (structured clone). -/
inductive Value where
  | undef
  | vBool (b : Bool)
  | vInt (n : Int)
  | vStr (s : String)
  deriving DecidableEq, Repr

/-- A field of a JS object: a plain data value or a function. -/
inductive JsField where
  | val (v : Value)
  | fn (f : List Value → Value)

/-- A JS object as an association list from property name to field. -/
abbrev JsObj := List (String × JsField)

/-- The string produced by typeof-dispatch in Bus.expose:
"function" for functions, "value" otherwise. -/
def kindOf : JsField → String
  | .fn _ => "function"
  | .val _ => "value"

/-- Property read obj[key], as an optional field. -/
def objGetField (o : JsObj) (key : String) : Option JsField :=
  (o.find? (fun p => p.1 == key)).map Prod.snd

/-- Coerce an optional field to the value it denotes in a message payload
(a missing property reads as undefined). -/
def fieldValue : Option JsField → Value
  | some (.val v) => v
  | _ => Value.undef

/-- Property write obj[key] = value: replace the field if the key exists,
otherwise add it. -/
def objSetField (o : JsObj) (key : String) (v : Value) : JsObj :=
  if (o.find? (fun p => p.1 == key)).isSome then
    o.map (fun p => if p.1 == key then (p.1, JsField.val v) else p)
  else o ++ [(key, JsField.val v)]

/-- One entry of the Keys array: key name k and kind tag t
("function" or "value" when produced by Bus.expose). -/
structure Keys where
  k : String
  t : String
  deriving DecidableEq, Repr

/-- The ExposedData record carried by catalog and register messages:
specifier, keys, interactable. -/
structure ExposedData where
  specifier : String
  keys : List Keys
  interactable : Bool
  deriving DecidableEq, Repr

/-- An Exposed entry held by a Bus. obj is none for a mirror
(the constructor taking ExposedData sets obj to undefined and
secondary to true); a primary holds the real object. -/
structure ExposedEntry where
  specifier : String
  obj : Option JsObj
  keys : List Keys
  interactable : Bool
  secondary : Bool

/-- Wire messages, one constructor per event name of the EventData union.
The waiting field is the correlation token added by the exposed-bus emit. -/
inductive Msg where
  | busBind
  | busBindSuccess
  | busExpose (catalog : List ExposedData)
  | busExposeSuccess (catalog : List ExposedData)
  | exposeRegister (d : ExposedData)
  | exposeGet (specifier key waiting : String)
  | exposeCall (specifier key : String) (args : List Value) (waiting : String)
  | exposeSet (specifier key : String) (value : Value) (waiting : String)
  | exposeRes (res : Value) (waiting : String)
  | user (name : String) (data : Value)
  deriving DecidableEq, Repr

/-- The event-name string of a message, as compared by the listener
dispatch in initListener. -/
def Msg.eventName : Msg → String
  | .busBind => "bus:bind"
  | .busBindSuccess => "bus:bindSuccess"
  | .busExpose _ => "bus:expose"
  | .busExposeSuccess _ => "bus:exposeSuccess"
  | .exposeRegister _ => "expose:register"
  | .exposeGet _ _ _ => "expose:get"
  | .exposeCall _ _ _ _ => "expose:call"
  | .exposeSet _ _ _ _ => "expose:set"
  | .exposeRes _ _ => "expose:res"
  | .user n _ => "user:" ++ n

/-- What the callback of a pending expose:res listener does with the
response once the token matches: resolve an application-level promise
(toApp, from a proxy get), or let a suspended on-handler of a mirror
entry continue and send its own expose:res reply (relay for get/call;
relaySet additionally applies the false-means-denied transform of
Exposed.set, which needs the value being written). -/
inductive ResCont where
  | toApp
  | relay (waiting : String)
  | relaySet (waiting : String) (value : Value)
  deriving DecidableEq, Repr

/-- The three request events an Exposed entry listens to. -/
inductive Op where
  | get
  | set
  | call
  deriving DecidableEq, Repr

/-- Defunctionalized listener callbacks. exposedOn is the handler pushed
by createExposedBus.on when an Exposed entry is constructed: it captured
the specifier of that bus and the entry (identified by its stable index
in the exposed list, entries being append-only). pending is the one-shot
response listener unshifted by createExposedBus.emit, carrying the token
it compares against data.waiting. userCb is an application callback. -/
inductive LKind where
  | exposedOn (specifier : String) (idx : Nat) (op : Op)
  | pending (token : String) (cont : ResCont)
  | userCb (id : Nat)
  deriving DecidableEq, Repr

/-- One entry of the listeners array: the event name it was registered
under, plus its defunctionalized callback. -/
structure Listener where
  event : String
  kind : LKind
  deriving DecidableEq, Repr

/-- The state of one Bus: the bounded flag, the exposed entries, the
listeners array, the confirm record (cb set / done), a counter supplying
fresh correlation tokens (the source draws random tokens; only their
freshness matters and the model makes them deterministic), the list of
application-level promise resolutions observed so far, and the tokens
whose promise has already fired (a promise resolves at most once). -/
structure BusState where
  bounded : Bool
  exposed : List ExposedEntry
  listeners : List Listener
  confirmCb : Bool
  confirmDone : Bool
  tokenCtr : Nat
  resolved : List (String × Value)
  firedTokens : List String

/-- A freshly constructed Bus. -/
def initState : BusState :=
  ⟨false, [], [], false, false, 0, [], []⟩

/-- The token generated at the top of createExposedBus.emit. -/
def freshTok (s : BusState) : String := "t" ++ toString s.tokenCtr

/-- The three listeners registered by the Exposed constructor through
createExposedBus.on, in registration order get, set, call. -/
def onListeners (specifier : String) (idx : Nat) : List Listener :=
  [⟨"expose:get", .exposedOn specifier idx .get⟩,
   ⟨"expose:set", .exposedOn specifier idx .set⟩,
   ⟨"expose:call", .exposedOn specifier idx .call⟩]

/-- Append a new Exposed entry: push it on the exposed list and register
its three on-listeners (the constructor runs createExposedBus.on for
get, set and call). -/
def pushEntry (s : BusState) (e : ExposedEntry) : BusState :=
  { s with
    exposed := s.exposed ++ [e],
    listeners := s.listeners ++ onListeners e.specifier s.exposed.length }

/-- The catalog a Bus sends: the map over this.exposed used in the
bus:expose and bus:exposeSuccess payloads. -/
def catalogOf (es : List ExposedEntry) : List ExposedData :=
  es.map fun e => ⟨e.specifier, e.keys, e.interactable⟩

/-- The mirror entry built from a received catalog item: the Exposed
constructor taking an ExposedData sets obj to undefined and secondary
to true. -/
def mirrorOf (d : ExposedData) : ExposedEntry :=
  ⟨d.specifier, none, d.keys, d.interactable, true⟩

/-- The merge loop of the bus:expose / bus:exposeSuccess handler: push a
new mirror entry for every catalog item, unconditionally. -/
def mergeCatalog (s : BusState) (cat : List ExposedData) : BusState :=
  cat.foldl (fun acc i => pushEntry acc (mirrorOf i)) s

/-- The confirm callback invoked at the end of the catalog branch: it is
a no-op unless confirm() installed its resolver, which sets bounded. -/
def applyConfirm (s : BusState) : BusState :=
  if s.confirmCb then { s with bounded := true } else s

/-- Outcome of Exposed.get: an immediate result (the raw field, or none
when the key is absent from the key catalog, which reads as undefined),
or a remote round trip for a mirror. -/
inductive GetCore where
  | now (f : Option JsField)
  | remote

/-- Exposed.get without the transport: key-catalog check, then local
field read for a primary, remote for a mirror (obj undefined or
secondary true). -/
def exposedGetCore (e : ExposedEntry) (key : String) : GetCore :=
  if (e.keys.find? (fun kk => kk.k == key)).isNone then .now none
  else if e.obj.isNone || e.secondary then .remote
  else .now (objGetField (e.obj.getD []) key)

/-- Outcome of Exposed.call: an immediate result, a thrown TypeError
(the field is not a function, so the async handler rejects and no reply
is ever posted), or a remote round trip. -/
inductive CallCore where
  | now (v : Value)
  | threw
  | remote

/-- Exposed.call without the transport. -/
def exposedCallCore (e : ExposedEntry) (key : String) (args : List Value) : CallCore :=
  if (e.keys.find? (fun kk => kk.k == key)).isNone then .now Value.undef
  else if e.obj.isNone || e.secondary then .remote
  else
    match objGetField (e.obj.getD []) key with
    | some (.fn f) => .now (f args)
    | _ => .threw

/-- Outcome of Exposed.set: result is the value it returns when it
completes without a round trip (undefined when interactable is false or
the key is unknown, the written value for a primary) and none when a
mirror must await the peer; sent is the expose:set payload (key, value)
emitted in that case; obj is the entry object afterwards. -/
structure SetOut where
  result : Option Value
  sent : Option (String × Value)
  obj : Option JsObj

/-- Exposed.set without the transport: refuse when interactable is
false (no mutation, no message), then key-catalog check, then remote
emit for a mirror or direct mutation for a primary. -/
def exposedSet (e : ExposedEntry) (key : String) (value : Value) : SetOut :=
  if e.interactable = false then ⟨some .undef, none, e.obj⟩
  else if (e.keys.find? (fun kk => kk.k == key)).isNone then ⟨some .undef, none, e.obj⟩
  else if e.obj.isNone || e.secondary then ⟨none, some (key, value), e.obj⟩
  else
    match e.obj with
    | some o => ⟨some value, none, some (objSetField o key value)⟩
    | none => ⟨some value, none, none⟩

/-- The continuation of Exposed.set after the awaited emit resolves:
a response of false means the write was denied and the caller gets
undefined, any other response yields the written value. -/
def setResolve (resp : Value) (value : Value) : Value :=
  if resp = .vBool false then .undef else value

/-- The on-handler for expose:get, after the specifier guard passed:
run Exposed.get on the entry and either post expose:res with the result
(a function field cannot be structured-cloned, so that reply is never
delivered), or (mirror) emit a nested expose:get with a fresh token and
a pending listener that will relay the response. -/
def handleGetReq (s : BusState) (idx : Nat) (key waiting : String) : BusState × List Msg :=
  match s.exposed[idx]? with
  | none => (s, [])
  | some e =>
    match exposedGetCore e key with
    | .now f =>
      match f with
      | some (.fn _) => (s, [])
      | _ => (s, [.exposeRes (fieldValue f) waiting])
    | .remote =>
      let t := freshTok s
      ({ s with
          tokenCtr := s.tokenCtr + 1,
          listeners := ⟨"expose:res", .pending t (.relay waiting)⟩ :: s.listeners },
       [.exposeGet e.specifier key t])

/-- The on-handler for expose:set, after the specifier guard passed. -/
def handleSetReq (s : BusState) (idx : Nat) (key : String) (value : Value)
    (waiting : String) : BusState × List Msg :=
  match s.exposed[idx]? with
  | none => (s, [])
  | some e =>
    let o := exposedSet e key value
    match o.result with
    | some r =>
      ({ s with exposed := s.exposed.set idx { e with obj := o.obj } },
       [.exposeRes r waiting])
    | none =>
      let t := freshTok s
      ({ s with
          tokenCtr := s.tokenCtr + 1,
          listeners := ⟨"expose:res", .pending t (.relaySet waiting value)⟩ :: s.listeners },
       [.exposeSet e.specifier key value t])

/-- The on-handler for expose:call, after the specifier guard passed.
A thrown TypeError rejects the async callback, so no reply is posted. -/
def handleCallReq (s : BusState) (idx : Nat) (key : String) (args : List Value)
    (waiting : String) : BusState × List Msg :=
  match s.exposed[idx]? with
  | none => (s, [])
  | some e =>
    match exposedCallCore e key args with
    | .now v => (s, [.exposeRes v waiting])
    | .threw => (s, [])
    | .remote =>
      let t := freshTok s
      ({ s with
          tokenCtr := s.tokenCtr + 1,
          listeners := ⟨"expose:res", .pending t (.relay waiting)⟩ :: s.listeners },
       [.exposeCall e.specifier key args t])

/-- Run the callback of the single listener selected by the dispatcher.
An exposedOn callback first checks the specifier carried in the request
against the one it captured and returns early on mismatch (a payload of
a different shape reads an undefined specifier and also mismatches).
A pending callback compares data.waiting with its token, and its promise
resolves at most once (later matching deliveries are ignored). -/
def runListener (s : BusState) (k : LKind) (m : Msg) : BusState × List Msg :=
  match k, m with
  | .pending tok cont, .exposeRes r w =>
    if w == tok then
      if s.firedTokens.contains tok then (s, [])
      else
        let s1 := { s with firedTokens := s.firedTokens ++ [tok] }
        match cont with
        | .toApp => ({ s1 with resolved := s1.resolved ++ [(tok, r)] }, [])
        | .relay w0 => (s1, [.exposeRes r w0])
        | .relaySet w0 v => (s1, [.exposeRes (setResolve r v) w0])
    else (s, [])
  | .exposedOn spec idx .get, .exposeGet spec2 key w =>
    if spec2 == spec then handleGetReq s idx key w else (s, [])
  | .exposedOn spec idx .set, .exposeSet spec2 key v w =>
    if spec2 == spec then handleSetReq s idx key v w else (s, [])
  | .exposedOn spec idx .call, .exposeCall spec2 key args w =>
    if spec2 == spec then handleCallReq s idx key args w else (s, [])
  | .userCb _, _ => (s, [])
  | _, _ => (s, [])

/-- The else-branch of the initListener message handler: find the FIRST
listener whose event name equals the event of the message and invoke its
callback; if none matches, the message is dropped. -/
def dispatchElse (s : BusState) (m : Msg) : BusState × List Msg :=
  match s.listeners.find? (fun l => l.event == m.eventName) with
  | none => (s, [])
  | some l => runListener s l.kind m

/-- The message handler installed by initListener. bus:bind is answered
with bus:bindSuccess, bus:bindSuccess with bus:expose carrying the own
catalog, and both set bounded. bus:expose is answered with
bus:exposeSuccess carrying the own catalog (computed before merging);
both catalog messages then merge every received item as a new mirror
entry, mark the confirm record done and invoke the confirm callback.
Every other event goes through the listener dispatch. -/
def handleMessage (s : BusState) (m : Msg) : BusState × List Msg :=
  match m with
  | .busBind => ({ s with bounded := true }, [.busBindSuccess])
  | .busBindSuccess => ({ s with bounded := true }, [.busExpose (catalogOf s.exposed)])
  | .busExpose cat =>
    let out := [Msg.busExposeSuccess (catalogOf s.exposed)]
    (applyConfirm { mergeCatalog s cat with confirmDone := true }, out)
  | .busExposeSuccess cat =>
    (applyConfirm { mergeCatalog s cat with confirmDone := true }, [])
  | m => dispatchElse s m

/-- The keys array computed by Bus.expose when the keys parameter is
omitted: every own property of the object, tagged by typeof. -/
def exposeKeysOf (obj : JsObj) : List Keys :=
  obj.map fun p => ⟨p.1, kindOf p.2⟩

/-- Bus.expose (with the keys parameter left at its default): build a
primary entry, push it with its listeners, and, when the bus is already
bounded, post an expose:register message to the peer. -/
def busExposeOp (s : BusState) (specifier : String) (obj : JsObj)
    (interactable : Bool) : BusState × List Msg :=
  let ks := exposeKeysOf obj
  let s1 := pushEntry s ⟨specifier, some obj, ks, interactable, false⟩
  (s1, if s.bounded then [.exposeRegister ⟨specifier, ks, interactable⟩] else [])

/-- Bus.bind: post bus:bind to the peer (the port plumbing is outside
the model). -/
def bindOp (s : BusState) : BusState × List Msg :=
  (s, [.busBind])

/-- Bus.confirm: resolve immediately if the confirm record is already
done (setting bounded), and install the confirm callback. -/
def confirmOp (s : BusState) : BusState :=
  let s1 := if s.confirmDone then { s with bounded := true } else s
  { s1 with confirmCb := true }

/-- Bus.on: register an application listener under user:event. -/
def busOnOp (s : BusState) (event : String) (id : Nat) : BusState :=
  { s with listeners := s.listeners ++ [⟨"user:" ++ event, .userCb id⟩] }

/-- Bus.emit: post a user event to the peer. -/
def busEmitOp (s : BusState) (event : String) (data : Value) : BusState × List Msg :=
  (s, [.user event data])

/-- What a property read through the proxy returned by Bus.getExposed
produces: undefined because no entry matches the specifier, undefined
because the property is not in the key catalog, a bound function for a
function-kind key, an immediate value (primary), or a promise identified
by the token of the emitted request (mirror). -/
inductive ProxyGetRes where
  | noEntry
  | noKey
  | fnAccessor
  | now (v : Value)
  | awaitTok (t : String)
  deriving DecidableEq, Repr

/-- Bus.getExposed followed by a property read on the returned proxy:
find the first entry with the specifier, look the property up in its key
catalog, and dispatch to Exposed.get (function-kind keys instead return
a function that would forward to Exposed.call). For a mirror the read
emits expose:get with a fresh token and unshifts the pending response
listener that resolves the promise handed to the application. -/
def proxyGetOp (s : BusState) (specifier prop : String) :
    BusState × List Msg × ProxyGetRes :=
  match s.exposed.find? (fun e => e.specifier == specifier) with
  | none => (s, [], .noEntry)
  | some e =>
    match e.keys.find? (fun kk => kk.k == prop) with
    | none => (s, [], .noKey)
    | some kk =>
      if kk.t == "function" then (s, [], .fnAccessor)
      else
        match exposedGetCore e prop with
        | .now f => (s, [], .now (fieldValue f))
        | .remote =>
          let t := freshTok s
          ({ s with
              tokenCtr := s.tokenCtr + 1,
              listeners := ⟨"expose:res", .pending t .toApp⟩ :: s.listeners },
           [.exposeGet e.specifier prop t], .awaitTok t)

/-- The set trap of the proxy returned by Bus.getExposed: reject (trap
result false, nothing forwarded) when the property is not in the key
catalog or its kind is "function"; otherwise forward (prop, value) to
Exposed.set and return true. The second component being none is the
statement that Exposed.set is not invoked, hence no expose:set message
can be sent and no field can change. -/
def proxySetTrap (keys : List Keys) (prop : String) (value : Value) :
    Bool × Option (String × Value) :=
  match keys.find? (fun kk => kk.k == prop) with
  | none => (false, none)
  | some kk => if kk.t == "function" then (false, none) else (true, some (prop, value))

/-! ## Concrete handshake traces

A two-bus run: side A exposes an object under specifier "obj" before
binding, side B initiates the bind. Messages are delivered one at a time
in send order; each stAi / stBi definition is the state after handling
one message, and the theorems below assert that the message consumed at
every step is exactly the one the previous step produced. -/

/-- Side A after exposing obj under "obj" (before binding). -/
def stA1 (obj : JsObj) : BusState := (busExposeOp initState "obj" obj false).1

/-- Side A after handling bus:bind from B. -/
def stA2 (obj : JsObj) : BusState := (handleMessage (stA1 obj) .busBind).1

/-- Side B after handling bus:bindSuccess from A. -/
def stB1 : BusState := (handleMessage initState .busBindSuccess).1

/-- Side A after handling the (empty) bus:expose catalog from B. -/
def stA3 (obj : JsObj) : BusState := (handleMessage (stA2 obj) (.busExpose [])).1

/-- Side B after handling the bus:exposeSuccess catalog from A. -/
def stB2 (obj : JsObj) : BusState :=
  (handleMessage stB1 (.busExposeSuccess (catalogOf (stA2 obj).exposed))).1

/-- The object exposed by A in the round-trip scenario. -/
def objX : JsObj := [("x", .val (.vInt 5))]

/-- B reads key x of "obj" through the proxy. -/
def c3get : BusState × List Msg × ProxyGetRes := proxyGetOp (stB2 objX) "obj" "x"

/-- A handles the expose:get request from B. -/
def c3Ares : BusState × List Msg := handleMessage (stA3 objX) (.exposeGet "obj" "x" "t0")

/-- B after handling the expose:res reply from A. -/
def c3final : BusState := (handleMessage c3get.1 (.exposeRes (.vInt 5) "t0")).1

/-- C3: if side A exposes the object with x mapped to 5 under specifier
"obj" before binding and the handshake completes on both sides (each
step below consuming exactly the message the previous step produced),
then on side B getExposed("obj") yields an accessor whose read of key
"x" emits a correlated expose:get, and the promise identified by its
token resolves to 5 once the expose:res reply is handled. -/
theorem c3_roundtrip :
    (handleMessage (stA1 objX) .busBind).2 = [.busBindSuccess] ∧
    (handleMessage initState .busBindSuccess).2 = [.busExpose []] ∧
    (handleMessage (stA2 objX) (.busExpose [])).2 =
      [.busExposeSuccess (catalogOf (stA2 objX).exposed)] ∧
    catalogOf (stA2 objX).exposed = [⟨"obj", [⟨"x", "value"⟩], false⟩] ∧
    (stA3 objX).bounded = true ∧ (stB2 objX).bounded = true ∧
    c3get.2.2 = .awaitTok "t0" ∧
    c3get.2.1 = [.exposeGet "obj" "x" "t0"] ∧
    c3Ares.2 = [.exposeRes (.vInt 5) "t0"] ∧
    c3final.resolved = [("t0", Value.vInt 5)] :=
  ⟨rfl, rfl, rfl, rfl, rfl, rfl, rfl, rfl, rfl, rfl⟩

/-- The object exposed by A in the concurrent-request scenario: two
value keys k1 and k2. -/
def objK : JsObj := [("k1", .val (.vInt 1)), ("k2", .val (.vInt 2))]

/-- B issues the first get (key k1); the emitted request carries token t0. -/
def c1g1 : BusState × List Msg × ProxyGetRes := proxyGetOp (stB2 objK) "obj" "k1"

/-- B issues the second get (key k2) while the first is outstanding; the
emitted request carries token t1. -/
def c1g2 : BusState × List Msg × ProxyGetRes := proxyGetOp c1g1.1 "obj" "k2"

/-- A handles the first request (k1, token t0). -/
def c1A1 : BusState × List Msg := handleMessage (stA3 objK) (.exposeGet "obj" "k1" "t0")

/-- A handles the second request (k2, token t1). -/
def c1A2 : BusState × List Msg := handleMessage c1A1.1 (.exposeGet "obj" "k2" "t1")

/-- B after handling the k2 response first (reverse order). -/
def c1B5 : BusState := (handleMessage c1g2.1 (.exposeRes (.vInt 2) "t1")).1

/-- B after then handling the k1 response. -/
def c1B6 : BusState := (handleMessage c1B5 (.exposeRes (.vInt 1) "t0")).1

/-- C1 fails on the code: with two outstanding mirror get requests
(tokens t0 for k1, then t1 for k2; the primary side answers each with
the correct value) and the responses delivered in reverse order, the
dispatcher hands every expose:res to the FIRST listener whose event
matches — the most recently unshifted pending listener (token t1). That
listener resolves k2 correctly, but when the k1 response arrives it is
still at the head of the list, its token comparison fails, and the k1
request is never resolved: resolved holds only the t1 entry. -/
theorem c1_reversed_responses :
    c1g1.2.2 = .awaitTok "t0" ∧ c1g1.2.1 = [.exposeGet "obj" "k1" "t0"] ∧
    c1g2.2.2 = .awaitTok "t1" ∧ c1g2.2.1 = [.exposeGet "obj" "k2" "t1"] ∧
    c1A1.2 = [.exposeRes (.vInt 1) "t0"] ∧
    c1A2.2 = [.exposeRes (.vInt 2) "t1"] ∧
    c1B5.resolved = [("t1", Value.vInt 2)] ∧
    c1B6.resolved = [("t1", Value.vInt 2)] ∧
    ("t0", Value.vInt 1) ∉ c1B6.resolved :=
  ⟨rfl, rfl, rfl, rfl, rfl, rfl, rfl, rfl, by decide⟩

/-- A bus exposing two objects: first the object with x mapped to 5
under "a", then the object with y mapped to 7 under "b". -/
def c2s : BusState :=
  (busExposeOp (busExposeOp initState "a" [("x", .val (.vInt 5))] false).1
    "b" [("y", .val (.vInt 7))] false).1

/-- C2 fails on the code once several entries are registered: an inbound
expose:get for the first-registered specifier "a" is answered, but one
for "b" reaches only the first expose:get listener (the one of entry
"a"), whose specifier guard drops it — entry "b" is never invoked and no
expose:res is sent. -/
theorem c2_second_entry_dropped :
    c2s.exposed.map ExposedEntry.specifier = ["a", "b"] ∧
    (handleMessage c2s (.exposeGet "a" "x" "t8")).2 = [.exposeRes (.vInt 5) "t8"] ∧
    (handleMessage c2s (.exposeGet "b" "y" "t9")).2 = [] ∧
    (handleMessage c2s (.exposeSet "b" "y" (.vInt 9) "t9")).2 = [] ∧
    (handleMessage c2s (.exposeCall "b" "y" [] "t9")).2 = [] :=
  ⟨rfl, rfl, rfl, rfl, rfl⟩

/-- Acceptor side of a handshake with empty catalogs: bounded after
bus:bind and the bus:expose exchange. -/
def c4A : BusState := (handleMessage (handleMessage initState .busBind).1 (.busExpose [])).1

/-- Initiator side of a handshake with empty catalogs: bounded after
bus:bindSuccess and the bus:exposeSuccess exchange. -/
def c4B : BusState :=
  (handleMessage (handleMessage initState .busBindSuccess).1 (.busExposeSuccess [])).1

/-- After binding, B exposes a new object under "n". -/
def c4reg : BusState × List Msg := busExposeOp c4B "n" [("y", .val (.vInt 3))] false

/-- C4 fails on the code: after both sides are bound, expose does post
an expose:register message, but the receiving side has no branch and no
listener for that event — handling it leaves the state unchanged and
produces no reply, so getExposed for that specifier still returns
undefined on the peer. -/
theorem c4_register_dropped :
    c4A.bounded = true ∧ c4B.bounded = true ∧
    c4reg.2 = [.exposeRegister ⟨"n", [⟨"y", "value"⟩], false⟩] ∧
    handleMessage c4A (.exposeRegister ⟨"n", [⟨"y", "value"⟩], false⟩) = (c4A, []) ∧
    (proxyGetOp c4A "n" "y").2.2 = .noEntry :=
  ⟨rfl, rfl, rfl, rfl, rfl⟩

/-! ## Pending listeners and expose:res handling (C5) -/

/-- Running any single listener on an expose:res message leaves the
listeners array unchanged: the pending callback resolves its promise but
contains no splice, an exposedOn callback returns early on the foreign
payload, and a user callback does not touch the registry. -/
theorem runListener_exposeRes_listeners (s : BusState) (k : LKind) (r : Value)
    (w : String) :
    ((runListener s k (.exposeRes r w)).1).listeners = s.listeners := by
  cases k with
  | exposedOn spec idx op => cases op <;> rfl
  | pending tok cont =>
    simp only [runListener]
    split
    · split
      · rfl
      · cases cont <;> rfl
    · rfl
  | userCb i => rfl

/-- Handling an expose:res message never changes the listeners array:
in particular no pending listener is ever removed. -/
theorem handleMessage_exposeRes_listeners (s : BusState) (r : Value) (w : String) :
    ((handleMessage s (.exposeRes r w)).1).listeners = s.listeners := by
  show ((dispatchElse s (.exposeRes r w)).1).listeners = s.listeners
  unfold dispatchElse
  split
  · rfl
  · exact runListener_exposeRes_listeners s _ r w

/-- A bus holding one mirror entry "obj", built by handling a received
catalog. -/
def c5B0 : BusState :=
  (handleMessage initState (.busExposeSuccess [⟨"obj", [⟨"x", "value"⟩], false⟩])).1

/-- The bus after a proxy read of key x issued the request with token t0. -/
def c5B1 : BusState := (proxyGetOp c5B0 "obj" "x").1

/-- The bus after the matching expose:res arrived and was dispatched. -/
def c5B2 : BusState := (handleMessage c5B1 (.exposeRes (.vInt 5) "t0")).1

/-- C5 fails on the code: the pending request is fulfilled when the
response carrying its token arrives, but its listener entry is NOT
removed from the registry — handling expose:res never changes the
listeners array at all, and in the concrete trace the pending listener
for token t0 is still registered after its promise resolved. -/
theorem c5_listener_never_removed :
    (∀ (s : BusState) (r : Value) (w : String),
      ((handleMessage s (.exposeRes r w)).1).listeners = s.listeners) ∧
    c5B2.resolved = [("t0", Value.vInt 5)] ∧
    Listener.mk "expose:res" (.pending "t0" .toApp) ∈ c5B2.listeners :=
  ⟨handleMessage_exposeRes_listeners, rfl, by decide⟩

/-! ## The bus:bind reply (C6) -/

/-- C6 as stated is false: the side receiving bus:bind (here holding a
nonempty catalog) replies with bus:bindSuccess only — no bus:expose
message carrying its catalog is sent in response to bus:bind. -/
theorem c6_counterexample :
    (handleMessage (stA1 objX) .busBind).2 = [.busBindSuccess] ∧
    Msg.busExpose (catalogOf (stA1 objX).exposed) ∉
      (handleMessage (stA1 objX) .busBind).2 :=
  ⟨rfl, by decide⟩

/-- C6 amended: receiving bus:bind produces exactly a bus:bindSuccess
reply (and sets bounded); the catalog of the bus:bind receiver is sent
later, as the bus:exposeSuccess reply produced when bus:expose arrives
(bus:expose itself is sent by the side that receives bus:bindSuccess). -/
theorem c6_amended_bind_reply :
    ∀ s : BusState,
      handleMessage s .busBind = ({ s with bounded := true }, [.busBindSuccess]) ∧
      (∀ cat, (handleMessage s (.busExpose cat)).2 =
        [.busExposeSuccess (catalogOf s.exposed)]) ∧
      handleMessage s .busBindSuccess =
        ({ s with bounded := true }, [.busExpose (catalogOf s.exposed)]) :=
  fun _ => ⟨rfl, fun _ => rfl, rfl⟩

/-! ## The bounded flag (C7) -/

/-- Merging a catalog never changes the bounded flag. -/
theorem mergeCatalog_bounded (cat : List ExposedData) (s : BusState) :
    (mergeCatalog s cat).bounded = s.bounded := by
  induction cat generalizing s with
  | nil => rfl
  | cons i t ih => exact ih (pushEntry s (mirrorOf i))

/-- Merging a catalog never changes the confirm callback flag. -/
theorem mergeCatalog_confirmCb (cat : List ExposedData) (s : BusState) :
    (mergeCatalog s cat).confirmCb = s.confirmCb := by
  induction cat generalizing s with
  | nil => rfl
  | cons i t ih => exact ih (pushEntry s (mirrorOf i))

/-- The expose:get on-handler never changes the bounded flag. -/
theorem handleGetReq_bounded (s : BusState) (idx : Nat) (key w : String) :
    ((handleGetReq s idx key w).1).bounded = s.bounded := by
  unfold handleGetReq
  (repeat' split) <;> rfl

/-- The expose:set on-handler never changes the bounded flag. -/
theorem handleSetReq_bounded (s : BusState) (idx : Nat) (key : String) (v : Value)
    (w : String) :
    ((handleSetReq s idx key v w).1).bounded = s.bounded := by
  unfold handleSetReq
  split
  · rfl
  · dsimp only
    split <;> rfl

/-- The expose:call on-handler never changes the bounded flag. -/
theorem handleCallReq_bounded (s : BusState) (idx : Nat) (key : String)
    (args : List Value) (w : String) :
    ((handleCallReq s idx key args w).1).bounded = s.bounded := by
  unfold handleCallReq
  (repeat' split) <;> rfl

/-- No listener callback changes the bounded flag. -/
theorem runListener_bounded (s : BusState) (k : LKind) (m : Msg) :
    ((runListener s k m).1).bounded = s.bounded := by
  unfold runListener
  (repeat' split) <;>
    first
      | rfl
      | apply handleGetReq_bounded
      | apply handleSetReq_bounded
      | apply handleCallReq_bounded

/-- The listener dispatch never changes the bounded flag. -/
theorem dispatchElse_bounded (s : BusState) (m : Msg) :
    ((dispatchElse s m).1).bounded = s.bounded := by
  unfold dispatchElse
  split
  · rfl
  · apply runListener_bounded

/-- The confirm callback sets bounded exactly when it was installed. -/
theorem applyConfirm_bounded (s : BusState) :
    (applyConfirm s).bounded = (s.bounded || s.confirmCb) := by
  unfold applyConfirm
  split <;> rename_i h
  · simp [h]
  · simp only [Bool.not_eq_true] at h
    rw [h, Bool.or_false]

/-- The bounded flag after handling one message, as a function of the
prior state: bus:bind and bus:bindSuccess set it unconditionally, the
two catalog messages set it exactly when a confirm() callback is
installed, and no other message changes it. -/
def boundedAfter (s : BusState) (m : Msg) : Bool :=
  match m with
  | .busBind => true
  | .busBindSuccess => true
  | .busExpose _ => s.bounded || s.confirmCb
  | .busExposeSuccess _ => s.bounded || s.confirmCb
  | _ => s.bounded

/-- C7 amended: bounded becomes true as soon as bus:bind or
bus:bindSuccess is handled — before any catalog has been received or
merged; the catalog messages themselves flip bounded only through an
installed confirm() callback, and no other message touches it. -/
theorem c7_amended_bounded_transitions (s : BusState) (m : Msg) :
    ((handleMessage s m).1).bounded = boundedAfter s m := by
  cases m with
  | busBind => rfl
  | busBindSuccess => rfl
  | busExpose cat =>
    show (applyConfirm { mergeCatalog s cat with confirmDone := true }).bounded
        = (s.bounded || s.confirmCb)
    rw [applyConfirm_bounded]
    show ((mergeCatalog s cat).bounded || (mergeCatalog s cat).confirmCb) = _
    rw [mergeCatalog_bounded, mergeCatalog_confirmCb]
  | busExposeSuccess cat =>
    show (applyConfirm { mergeCatalog s cat with confirmDone := true }).bounded
        = (s.bounded || s.confirmCb)
    rw [applyConfirm_bounded]
    show ((mergeCatalog s cat).bounded || (mergeCatalog s cat).confirmCb) = _
    rw [mergeCatalog_bounded, mergeCatalog_confirmCb]
  | exposeRegister d => exact dispatchElse_bounded s _
  | exposeGet spec key w => exact dispatchElse_bounded s _
  | exposeCall spec key args w => exact dispatchElse_bounded s _
  | exposeSet spec key v w => exact dispatchElse_bounded s _
  | exposeRes r w => exact dispatchElse_bounded s _
  | user n d => exact dispatchElse_bounded s _

/-- C7 as stated is false: one bus:bind step from the initial state
reaches a state with bounded already true while no catalog has been
received or merged (the registry is empty and the confirm record is not
done). -/
theorem c7_counterexample :
    ((handleMessage initState .busBind).1).bounded = true ∧
    ((handleMessage initState .busBind).1).exposed = [] ∧
    ((handleMessage initState .busBind).1).confirmDone = false :=
  ⟨rfl, rfl, rfl⟩

/-! ## Catalog merge (C8) -/

/-- Pushing an entry appends it to the exposed list. -/
theorem pushEntry_exposed (s : BusState) (e : ExposedEntry) :
    (pushEntry s e).exposed = s.exposed ++ [e] := rfl

/-- Merging a catalog appends one mirror entry per item, in order,
after the existing entries. -/
theorem mergeCatalog_exposed (cat : List ExposedData) (s : BusState) :
    (mergeCatalog s cat).exposed = s.exposed ++ cat.map mirrorOf := by
  induction cat generalizing s with
  | nil => simp [mergeCatalog]
  | cons i t ih =>
    have h := ih (pushEntry s (mirrorOf i))
    rw [pushEntry_exposed] at h
    show (mergeCatalog (pushEntry s (mirrorOf i)) t).exposed = _
    rw [h]
    simp

/-- The confirm callback does not touch the exposed list. -/
theorem applyConfirm_exposed (s : BusState) : (applyConfirm s).exposed = s.exposed := by
  unfold applyConfirm
  split <;> rfl

/-- A find? hit in the first part of an append is a find? hit in the
whole list (earlier entries keep lookup priority). -/
theorem find?_append_of_find? {α : Type} (p : α → Bool) {l1 : List α} (l2 : List α)
    {a : α} (h : l1.find? p = some a) : (l1 ++ l2).find? p = some a := by
  induction l1 with
  | nil => simp [List.find?] at h
  | cons x t ih =>
    rw [List.cons_append]
    cases hx : p x with
    | true =>
      rw [List.find?_cons_of_pos _ hx] at h ⊢
      exact h
    | false =>
      have hx2 : ¬ p x = true := by simp [hx]
      rw [List.find?_cons_of_neg _ hx2] at h ⊢
      exact ih h

/-- C8 amended: when a Bus merges a received catalog it does NOT skip
items whose specifier it already holds — every item becomes a new
mirror entry appended after the existing entries, so a specifier can
end up with several entries; a specifier already present before the
merge keeps resolving (by first match) to its pre-merge entry. -/
theorem c8_amended_merge_appends (s : BusState) (cat : List ExposedData) :
    ((handleMessage s (.busExpose cat)).1).exposed = s.exposed ++ cat.map mirrorOf ∧
    ((handleMessage s (.busExposeSuccess cat)).1).exposed = s.exposed ++ cat.map mirrorOf ∧
    (∀ spec e, s.exposed.find? (fun x => x.specifier == spec) = some e →
      ((handleMessage s (.busExposeSuccess cat)).1).exposed.find?
        (fun x => x.specifier == spec) = some e) := by
  have hx : ((handleMessage s (.busExposeSuccess cat)).1).exposed
      = s.exposed ++ cat.map mirrorOf := by
    show (applyConfirm { mergeCatalog s cat with confirmDone := true }).exposed = _
    rw [applyConfirm_exposed]
    show (mergeCatalog s cat).exposed = _
    exact mergeCatalog_exposed cat s
  refine ⟨?_, hx, ?_⟩
  · show (applyConfirm { mergeCatalog s cat with confirmDone := true }).exposed = _
    rw [applyConfirm_exposed]
    exact mergeCatalog_exposed cat s
  · intro spec e h
    rw [hx]
    exact find?_append_of_find? _ _ h

/-- A bus already holding a primary entry under specifier "a". -/
def c8s : BusState := (busExposeOp initState "a" [("x", .val (.vInt 5))] false).1

/-- C8 as stated is false: merging a catalog that carries an item for
the already-held specifier "a" does not skip it — after the merge the
registry holds TWO entries with specifier "a". -/
theorem c8_counterexample :
    (((handleMessage c8s (.busExposeSuccess [⟨"a", [⟨"x", "value"⟩], false⟩])).1).exposed.filter
      (fun e => e.specifier == "a")).length = 2 := rfl

/-- Witness for the lookup-priority conjunct of the amended C8: merging
a duplicate item for "a" into c8s leaves find? returning the original
primary entry (obj still the exposed object, secondary still false). -/
theorem c8_amended_merge_appends_witness :
    (((handleMessage c8s (.busExposeSuccess [⟨"a", [⟨"x", "value"⟩], false⟩])).1).exposed.find?
        (fun x => x.specifier == "a")).map (fun e => e.secondary) = some false :=
  by
    have h := (c8_amended_merge_appends c8s [⟨"a", [⟨"x", "value"⟩], false⟩]).2.2 "a"
      ⟨"a", some [("x", .val (.vInt 5))], [⟨"x", "value"⟩], false, false⟩ rfl
    rw [h]
    rfl

/-! ## Exposed.set gating (C9) -/

/-- C9: when interactable is false, set returns undefined immediately —
no message is emitted and the entry object is untouched; for a mirror
with interactable true and a cataloged key, set emits the request and
awaits (result pending), and the await continuation maps a false
response to undefined and any other response to the written value. -/
theorem c9_set_gating :
    (∀ (e : ExposedEntry) (key : String) (value : Value), e.interactable = false →
      exposedSet e key value = ⟨some .undef, none, e.obj⟩) ∧
    (∀ (e : ExposedEntry) (key : String) (value : Value), e.interactable = true →
      e.secondary = true → (e.keys.find? (fun kk => kk.k == key)).isSome = true →
      (exposedSet e key value).result = none ∧
      (exposedSet e key value).sent = some (key, value)) ∧
    (∀ value : Value, setResolve (.vBool false) value = .undef) ∧
    (∀ (resp value : Value), resp ≠ .vBool false → setResolve resp value = value) := by
  refine ⟨?_, ?_, ?_, ?_⟩
  · intro e key value h
    simp [exposedSet, h]
  · intro e key value h1 h2 h3
    obtain ⟨kk, hk⟩ := Option.isSome_iff_exists.mp h3
    constructor <;> simp [exposedSet, h1, h2, hk]
  · intro value
    simp [setResolve]
  · intro resp value h
    simp [setResolve, h]

/-- Witness for C9 at concrete entries: a non-interactable mirror
refuses the write outright; an interactable mirror emits the request,
resolves to undefined on a false response and to the written value on
any other response. -/
theorem c9_set_gating_witness :
    exposedSet ⟨"obj", none, [⟨"x", "value"⟩], false, true⟩ "x" (.vInt 9) =
      ⟨some .undef, none, none⟩ ∧
    (exposedSet ⟨"obj", none, [⟨"x", "value"⟩], true, true⟩ "x" (.vInt 9)).result = none ∧
    (exposedSet ⟨"obj", none, [⟨"x", "value"⟩], true, true⟩ "x" (.vInt 9)).sent =
      some ("x", .vInt 9) ∧
    setResolve (.vBool false) (.vInt 9) = .undef ∧
    setResolve (.vInt 1) (.vInt 9) = .vInt 9 :=
  ⟨c9_set_gating.1 ⟨"obj", none, [⟨"x", "value"⟩], false, true⟩ "x" (.vInt 9) rfl,
   (c9_set_gating.2.1 ⟨"obj", none, [⟨"x", "value"⟩], true, true⟩ "x" (.vInt 9)
     rfl rfl rfl).1,
   (c9_set_gating.2.1 ⟨"obj", none, [⟨"x", "value"⟩], true, true⟩ "x" (.vInt 9)
     rfl rfl rfl).2,
   c9_set_gating.2.2.1 _,
   c9_set_gating.2.2.2 _ _ (by decide)⟩

/-! ## The proxy set trap (C10) -/

/-- C10: the set trap of the getExposed proxy rejects (returns false
and forwards nothing — so no expose:set can be sent and nothing can
change) whenever the property is absent from the key catalog or its
kind is "function"; whenever it does forward to Exposed.set it returns
true, and over catalogs whose kinds come from expose (always "function"
or "value", as the last conjunct shows) the forwarded key is of kind
"value". -/
theorem c10_proxy_set_trap :
    (∀ (keys : List Keys) (prop : String) (value : Value),
      keys.find? (fun kk => kk.k == prop) = none →
      proxySetTrap keys prop value = (false, none)) ∧
    (∀ (keys : List Keys) (prop : String) (value : Value) (kk : Keys),
      keys.find? (fun kk2 => kk2.k == prop) = some kk → kk.t = "function" →
      proxySetTrap keys prop value = (false, none)) ∧
    (∀ (keys : List Keys) (prop : String) (value : Value),
      (∀ kk ∈ keys, kk.t = "function" ∨ kk.t = "value") →
      ∀ fwd, (proxySetTrap keys prop value).2 = some fwd →
        proxySetTrap keys prop value = (true, some (prop, value)) ∧
        ∃ kk, keys.find? (fun kk2 => kk2.k == prop) = some kk ∧ kk.t = "value") ∧
    (∀ obj : JsObj, ∀ kk ∈ exposeKeysOf obj, kk.t = "function" ∨ kk.t = "value") := by
  refine ⟨?_, ?_, ?_, ?_⟩
  · intro keys prop value h
    simp [proxySetTrap, h]
  · intro keys prop value kk h hk
    simp [proxySetTrap, h, hk]
  · intro keys prop value hwf fwd h2
    cases hf : keys.find? (fun kk2 => kk2.k == prop) with
    | none => simp [proxySetTrap, hf] at h2
    | some kk =>
      by_cases ht : kk.t = "function"
      · simp [proxySetTrap, hf, ht] at h2
      · have htv : kk.t = "value" := by
          cases hwf kk (List.mem_of_find?_eq_some hf) with
          | inl hcontra => exact absurd hcontra ht
          | inr hv => exact hv
        exact ⟨by simp [proxySetTrap, hf, ht], kk, rfl, htv⟩
  · intro obj kk hmem
    simp only [exposeKeysOf, List.mem_map] at hmem
    obtain ⟨⟨pn, pf⟩, hp, rfl⟩ := hmem
    cases pf with
    | val v => right; rfl
    | fn f => left; rfl

/-- Witness for C10 at a concrete catalog with one value key and one
function key: an unknown property and the function key are rejected
with nothing forwarded, the value key is forwarded with trap result
true. -/
theorem c10_proxy_set_trap_witness :
    proxySetTrap [⟨"x", "value"⟩, ⟨"f", "function"⟩] "z" (.vInt 1) = (false, none) ∧
    proxySetTrap [⟨"x", "value"⟩, ⟨"f", "function"⟩] "f" (.vInt 1) = (false, none) ∧
    proxySetTrap [⟨"x", "value"⟩, ⟨"f", "function"⟩] "x" (.vInt 1) =
      (true, some ("x", .vInt 1)) ∧
    (∃ kk, ([⟨"x", "value"⟩, ⟨"f", "function"⟩] : List Keys).find?
      (fun kk2 => kk2.k == "x") = some kk ∧ kk.t = "value") :=
  ⟨c10_proxy_set_trap.1 [⟨"x", "value"⟩, ⟨"f", "function"⟩] "z" (.vInt 1) rfl,
   c10_proxy_set_trap.2.1 [⟨"x", "value"⟩, ⟨"f", "function"⟩] "f" (.vInt 1)
     ⟨"f", "function"⟩ rfl rfl,
   (c10_proxy_set_trap.2.2.1 [⟨"x", "value"⟩, ⟨"f", "function"⟩] "x" (.vInt 1)
     (by decide) ("x", .vInt 1) rfl).1,
   (c10_proxy_set_trap.2.2.1 [⟨"x", "value"⟩, ⟨"f", "function"⟩] "x" (.vInt 1)
     (by decide) ("x", .vInt 1) rfl).2⟩

end Threadbus
